import Mathlib

/-!
Verification of the AEGIS autonomous liquidity-position manager.

Part 1 embeds the smart contract `AegisPosition` (src/contracts/aegis_position.py).
The contract runs on the Algorand AVM: every global-state field and every ABI
argument is a `uint64`, and AVM arithmetic does not wrap — an addition whose
result would reach 2^64 (or a subtraction below zero) aborts the transaction,
and an aborted application call leaves the global state untouched.  We model
`uint64` values as `Nat`, checked arithmetic as `Option Nat`, and a method call
as a function returning `Option ContractState` (`none` = the call failed and
the chain keeps the previous state).  Addresses are modelled as abstract
naturals; `Txn.sender`, `Global.creator_address` and `Global.latest_timestamp`
are supplied through a `CallCtx`.

Part 2 embeds the monitoring agent (src/agent/aegis_agent.py): the volatility
model, the cost estimator, the decision engine and the post-decision tail of
the monitoring loop.  The Python code computes with IEEE floats; the embedding
uses exact rationals.  The only square root in the source,
`hourly_std = sqrt(variance) * sqrt(90)`, is used once in a comparison of
nonnegative quantities (`hourly_std < 0.0001`) and once squared
(`(min_dist / hourly_std) ** 2`), so the embedding tracks `hourly_std ^ 2`
exactly and never needs a square root.
-/

namespace AegisPosition

/-- `2 ^ 64`, the AVM uint64 overflow bound. -/
def W : ℕ := 2 ^ 64

/-- AVM uint64 addition: aborts (returns `none`) when the sum reaches `2^64`. -/
def checkedAdd (a b : ℕ) : Option ℕ :=
  if a + b < W then some (a + b) else none

/-- Transaction-level context of one application call: `Txn.sender`,
`Global.creator_address` and `Global.latest_timestamp`. -/
structure CallCtx where
  sender : ℕ
  creator : ℕ
  ts : ℕ
deriving Repr, DecidableEq

/-- Global state of the `AegisPosition` contract (all `uint64` fields,
plus the agent address, modelled as an abstract natural). -/
structure ContractState where
  entry_price : ℕ
  lower_bound : ℕ
  upper_bound : ℕ
  capital_usdc : ℕ
  open_timestamp : ℕ
  total_rebalances : ℕ
  last_rebalance_timestamp : ℕ
  deposited_algo : ℕ
  deposited_usdc : ℕ
  total_deposits : ℕ
  total_withdrawals : ℕ
  agent_address : ℕ
  agent_authorized : ℕ
  total_decisions : ℕ
  last_decision_timestamp : ℕ
  last_decision_action : ℕ
deriving Repr, DecidableEq

/-- `AegisPosition.trigger_rebalance(new_lower, new_upper)`:
allowed for the creator or the authorized agent; stores the new bounds
unvalidated, increments `total_rebalances` and `total_decisions`, stamps the
timestamps and sets `last_decision_action = 1`. -/
def trigger_rebalance (ctx : CallCtx) (s : ContractState)
    (new_lower new_upper : ℕ) : Option ContractState :=
  let is_creator := ctx.sender = ctx.creator
  let is_agent := s.agent_authorized = 1 ∧ ctx.sender = s.agent_address
  if is_creator ∨ is_agent then
    do
      let tr ← checkedAdd s.total_rebalances 1
      let td ← checkedAdd s.total_decisions 1
      some { s with
        lower_bound := new_lower
        upper_bound := new_upper
        total_rebalances := tr
        last_rebalance_timestamp := ctx.ts
        total_decisions := td
        last_decision_timestamp := ctx.ts
        last_decision_action := 1 }
  else none

/-- `AegisPosition.deposit(algo_amount, usdc_amount)`: no authorization check;
adds the amounts to the vault balances and increments `total_deposits`. -/
def deposit (ctx : CallCtx) (s : ContractState)
    (algo_amount usdc_amount : ℕ) : Option ContractState :=
  do
    let da ← checkedAdd s.deposited_algo algo_amount
    let du ← checkedAdd s.deposited_usdc usdc_amount
    let td ← checkedAdd s.total_deposits 1
    some { s with
      deposited_algo := da
      deposited_usdc := du
      total_deposits := td }

/-- `AegisPosition.withdraw(algo_amount, usdc_amount)`: creator only, amounts
must not exceed the vault balances; subtracts the amounts and increments
`total_withdrawals`. -/
def withdraw (ctx : CallCtx) (s : ContractState)
    (algo_amount usdc_amount : ℕ) : Option ContractState :=
  if ctx.sender = ctx.creator then
    if algo_amount ≤ s.deposited_algo then
      if usdc_amount ≤ s.deposited_usdc then
        do
          let tw ← checkedAdd s.total_withdrawals 1
          some { s with
            deposited_algo := s.deposited_algo - algo_amount
            deposited_usdc := s.deposited_usdc - usdc_amount
            total_withdrawals := tw }
      else none
    else none
  else none

/-- The chain state after an application call: a failed call (`none`)
leaves the previous global state in place. -/
def applyTx (s : ContractState) (r : Option ContractState) : ContractState :=
  r.getD s

/-- A concrete well-formed contract state used in several examples. -/
def baseState : ContractState :=
  { entry_price := 172, lower_bound := 140, upper_bound := 220
    capital_usdc := 500000, open_timestamp := 0
    total_rebalances := 0, last_rebalance_timestamp := 0
    deposited_algo := 5000000, deposited_usdc := 5000000
    total_deposits := 1, total_withdrawals := 0
    agent_address := 7, agent_authorized := 1
    total_decisions := 0, last_decision_timestamp := 0
    last_decision_action := 0 }

/-- A copy of `baseState` whose withdrawal counter sits at the uint64 maximum. -/
def maxWithdrawState : ContractState :=
  { baseState with total_withdrawals := 2 ^ 64 - 1, agent_authorized := 0 }

/-- A copy of `baseState` whose rebalance counter sits at the uint64 maximum. -/
def maxRebalanceState : ContractState :=
  { baseState with total_rebalances := 2 ^ 64 - 1 }

/-- A copy of `baseState` whose ALGO balance sits at the uint64 maximum. -/
def maxAlgoState : ContractState :=
  { baseState with deposited_algo := 2 ^ 64 - 1 }

end AegisPosition

namespace Agent

/-- `config.BUFFER_ZONE_PCT = 3.0`. -/
def BUFFER_ZONE_PCT : ℚ := 3

/-- `config.REBALANCE_COOLDOWN_SECONDS = 1800`. -/
def REBALANCE_COOLDOWN_SECONDS : ℚ := 1800

/-- `config.COST_BENEFIT_MULTIPLIER = 2.5`. -/
def COST_BENEFIT_MULTIPLIER : ℚ := 5 / 2

/-- `config.MIN_HOURS_IN_RANGE = 4`. -/
def MIN_HOURS_IN_RANGE : ℚ := 4

/-- `config.VOLATILITY_WINDOW = 24` (hours). -/
def VOLATILITY_WINDOW : ℕ := 24

/-- `estimate_swap_cost(capital, slippage_pct)`: half the capital is swapped;
0.3% swap fee, `slippage_pct`% slippage on the swapped half, fixed 0.004 gas.
The call in `evaluate` uses the default `slippage_pct = 0.5`. -/
def estimate_swap_cost (capital : ℚ) (slippage_pct : ℚ) : ℚ :=
  let swap_amount := capital * (1 / 2)
  let swap_fee := swap_amount * (3 / 1000)
  let slippage_cost := swap_amount * (slippage_pct / 100)
  let gas_cost : ℚ := 1 / 250
  swap_fee + slippage_cost + gas_cost

/-- `VolatilityModel`: rolling window of price samples. -/
structure VolatilityModel where
  window : ℕ
  price_history : List ℚ
deriving Repr, DecidableEq

/-- `VolatilityModel.update(price)`: append the sample, keep only the last
`window * 90` samples. -/
def VolatilityModel.update (m : VolatilityModel) (price : ℚ) : VolatilityModel :=
  let h := m.price_history ++ [price]
  let max_samples := m.window * 90
  if h.length > max_samples then
    { m with price_history := h.drop (h.length - max_samples) }
  else
    { m with price_history := h }

/-- Mean `sum(recent) / len(recent)` from `predict_hours_in_range`. -/
def sampleMean (l : List ℚ) : ℚ := l.sum / l.length

/-- Population variance `sum((p - mean) ** 2 for p in recent) / len(recent)`
from `predict_hours_in_range`. -/
def sampleVariance (l : List ℚ) : ℚ :=
  (l.map (fun p => (p - sampleMean l) ^ 2)).sum / l.length

/-- Recent samples `price_history[-90:]`: the most recent hour. -/
def recentWindow (l : List ℚ) : List ℚ := l.drop (l.length - 90)

/-- `VolatilityModel.predict_hours_in_range(current, lower, upper)`.

The source computes `std_dev = sqrt(variance) if variance > 0 else 0.001` and
`hourly_std = std_dev * sqrt(90)`, then compares `hourly_std < 0.0001` and
returns `min((min_dist / hourly_std) ** 2, 168)`.  Both uses of `hourly_std`
go through its square: `hourly_std < 0.0001` iff `hourly_std^2 < 10^-8` (both
sides nonnegative), and `(min_dist / hourly_std)^2 = min_dist^2 / hourly_std^2`.
The embedding therefore tracks `hourlyVar = hourly_std^2` exactly, with
`hourlyVar = (if variance > 0 then variance else 0.001^2) * 90`. -/
def VolatilityModel.predict_hours_in_range (m : VolatilityModel)
    (current lower upper : ℚ) : ℚ :=
  if m.price_history.length < 10 then 12
  else
    let recent := recentWindow m.price_history
    let variance := sampleVariance recent
    let dist_lower := current - lower
    let dist_upper := upper - current
    let min_dist := min dist_lower dist_upper
    let hourlyVar := (if variance > 0 then variance else 1 / 1000000) * 90
    if hourlyVar < 1 / 100000000 then 48
    else min (min_dist ^ 2 / hourlyVar) 168

/-- `PositionState`: the on-chain position as the agent reads it. -/
structure PositionState where
  entry_price : ℚ
  lower_bound : ℚ
  upper_bound : ℚ
  capital_usdc : ℚ
  total_rebalances : ℕ
  open_timestamp : ℕ
deriving Repr, DecidableEq

/-- Pool state dict as consumed by `evaluate` (`sqrt_price`, an unused float
square root, is omitted). -/
structure PoolState where
  current_price : ℚ
  liquidity : ℚ
  fee_rate : ℚ
  tick_spacing : ℕ
deriving Repr, DecidableEq

/-- The four decision actions. -/
inductive Action where
  | HOLD
  | REBALANCE
  | ALERT
  | SKIP
deriving Repr, DecidableEq

/-- Identity and numeric payload of the `reason` string of each branch of
`evaluate` (the source interpolates these values into an f-string; the
embedding keeps the values and drops the surrounding text). -/
inductive Reason where
  | cooldown (remaining : ℤ)
  | bufferZone (dist : ℚ)
  | preemptive (hours net_benefit : ℚ)
  | nearBoundary (hours : ℚ)
  | inRange (hours daily_fee : ℚ)
  | outOfRange (projected_weekly swap_cost : ℚ)
  | outOfRangeSkip (swap_cost projected_weekly : ℚ)
deriving Repr, DecidableEq

/-- The decision dict returned by `evaluate`; `new_lower`/`new_upper` are
`none` exactly when the corresponding dict keys are absent. -/
structure Decision where
  action : Action
  reason : Reason
  fee_projection : ℚ
  swap_cost : ℚ
  hours_in_range : ℚ
  confidence : ℚ
  new_lower : Option ℚ := none
  new_upper : Option ℚ := none
deriving Repr, DecidableEq

/-- Mutable state owned by `DecisionEngine`: the volatility model and the
cooldown timestamp. -/
structure EngineState where
  vol_model : VolatilityModel
  last_rebalance_time : ℚ
deriving Repr, DecidableEq

/-- Relative distance `abs(price - bound) / bound if bound > 0 else 999`
used by the buffer-zone guard. -/
def boundaryDist (price bound : ℚ) : ℚ :=
  if bound > 0 then |price - bound| / bound else 999

/-- `DecisionEngine.evaluate(price, position, pool_state)`.

The source reads the wall clock twice — `now = time.time()` for the cooldown
guard and `time.time()` again when stamping `last_rebalance_time` on a
REBALANCE; within one evaluation the embedding models both reads as the same
instant `now`.  `remaining = int(...)` truncates toward zero; the truncated
value is positive in the cooldown branch, so it equals the floor. -/
def DecisionEngine.evaluate (now : ℚ) (price : ℚ) (position : PositionState)
    (pool_state : PoolState) (st : EngineState) : Decision × EngineState :=
  let vol := st.vol_model.update price
  let in_range := position.lower_bound ≤ price ∧ price ≤ position.upper_bound
  let swap_cost := estimate_swap_cost position.capital_usdc (1 / 2)
  let since_last := now - st.last_rebalance_time
  if since_last < REBALANCE_COOLDOWN_SECONDS ∧ st.last_rebalance_time > 0 then
    ({ action := .SKIP
       reason := .cooldown ⌊REBALANCE_COOLDOWN_SECONDS - since_last⌋
       fee_projection := 0, swap_cost := swap_cost
       hours_in_range := 0, confidence := 3 / 10 },
     { vol_model := vol, last_rebalance_time := st.last_rebalance_time })
  else
    let buffer_frac := BUFFER_ZONE_PCT / 100
    let dist_lower := boundaryDist price position.lower_bound
    let dist_upper := boundaryDist price position.upper_bound
    if ¬in_range ∧ min dist_lower dist_upper < buffer_frac then
      ({ action := .HOLD
         reason := .bufferZone (min dist_lower dist_upper)
         fee_projection := 0, swap_cost := swap_cost
         hours_in_range := 0, confidence := 6 / 10 },
       { vol_model := vol, last_rebalance_time := st.last_rebalance_time })
    else
      let daily_fee :=
        position.capital_usdc * pool_state.fee_rate * (if in_range then 1 else 0)
      let weekly_fee := daily_fee * 7
      let hours_in_range :=
        vol.predict_hours_in_range price position.lower_bound position.upper_bound
      if in_range then
        if hours_in_range < MIN_HOURS_IN_RANGE then
          let net_benefit := weekly_fee - swap_cost
          if net_benefit > swap_cost * COST_BENEFIT_MULTIPLIER then
            ({ action := .REBALANCE
               reason := .preemptive hours_in_range net_benefit
               fee_projection := weekly_fee, swap_cost := swap_cost
               hours_in_range := hours_in_range, confidence := 7 / 10 },
             { vol_model := vol, last_rebalance_time := now })
          else
            ({ action := .ALERT
               reason := .nearBoundary hours_in_range
               fee_projection := weekly_fee, swap_cost := swap_cost
               hours_in_range := hours_in_range, confidence := 5 / 10 },
             { vol_model := vol, last_rebalance_time := st.last_rebalance_time })
        else
          ({ action := .HOLD
             reason := .inRange hours_in_range daily_fee
             fee_projection := weekly_fee, swap_cost := swap_cost
             hours_in_range := hours_in_range, confidence := 9 / 10 },
           { vol_model := vol, last_rebalance_time := st.last_rebalance_time })
      else
        let new_lower := price * (82 / 100)
        let new_upper := price * (122 / 100)
        let projected_daily := position.capital_usdc * pool_state.fee_rate
        let projected_weekly := projected_daily * 7
        if projected_weekly > swap_cost * COST_BENEFIT_MULTIPLIER then
          ({ action := .REBALANCE
             reason := .outOfRange projected_weekly swap_cost
             fee_projection := projected_weekly, swap_cost := swap_cost
             hours_in_range := 0, confidence := 85 / 100
             new_lower := some new_lower, new_upper := some new_upper },
           { vol_model := vol, last_rebalance_time := now })
        else
          ({ action := .SKIP
             reason := .outOfRangeSkip swap_cost projected_weekly
             fee_projection := projected_weekly, swap_cost := swap_cost
             hours_in_range := 0, confidence := 6 / 10 },
           { vol_model := vol, last_rebalance_time := st.last_rebalance_time })

/-- Reason as logged by the monitoring loop: either the decision's reason, or
the decision's reason with the reverted note appended
(`decision["reason"] += " (reverted)"`). -/
inductive LoggedReason where
  | plain (r : Reason)
  | reverted (r : Reason)
deriving Repr, DecidableEq

/-- The fields of the appended log entry that the loop itself determines:
price, final action, final reason, and the optional transaction id.  (The
remaining logged fields are the decision's numeric fields, rounded for
display by `DecisionLogger.log`.) -/
structure LogRecord where
  price : ℚ
  action : Action
  reason : LoggedReason
  tx_id : Option String
deriving Repr, DecidableEq

/-- One iteration of `monitoring_loop` from the `evaluate` call onward
(steps 3-5 of the loop body).  The outcome of `submit_group` is supplied as
`submit_result` (`none` = the atomic group failed/reverted); it is consulted
only when the decision is REBALANCE and the agent is live.  On failure the
decision's action is downgraded to SKIP and the reverted note is appended;
the engine state produced by `evaluate` is returned as is — the loop never
touches `last_rebalance_time` itself. -/
def runCycle (now price : ℚ) (position : PositionState) (pool_state : PoolState)
    (st : EngineState) (dry_run : Bool) (submit_result : Option String) :
    LogRecord × EngineState :=
  let res := DecisionEngine.evaluate now price position pool_state st
  let decision := res.1
  if decision.action = .REBALANCE ∧ dry_run = false then
    match submit_result with
    | some tx =>
      ({ price := price, action := decision.action
         reason := .plain decision.reason, tx_id := some tx }, res.2)
    | none =>
      ({ price := price, action := .SKIP
         reason := .reverted decision.reason, tx_id := none }, res.2)
  else
    ({ price := price, action := decision.action
       reason := .plain decision.reason, tx_id := none }, res.2)

/-- The default position of the agent (entry 0.172, range [0.140, 0.220],
capital 5000 USDC). -/
def examplePosition : PositionState :=
  { entry_price := 172 / 1000, lower_bound := 140 / 1000
    upper_bound := 220 / 1000, capital_usdc := 5000
    total_rebalances := 0, open_timestamp := 0 }

/-- A pool state with the simulated fee rate 0.003 and price 0.18. -/
def examplePool : PoolState :=
  { current_price := 18 / 100, liquidity := 125000
    fee_rate := 3 / 1000, tick_spacing := 10 }

/-- A fresh engine: empty sample window, no rebalance yet. -/
def freshEngine : EngineState :=
  { vol_model := { window := VOLATILITY_WINDOW, price_history := [] }
    last_rebalance_time := 0 }

/-- Ten widely dispersed samples (five at 0.10, five at 0.30): recent
volatility far above the negligible-volatility threshold. -/
def histJumpy : List ℚ := List.replicate 5 (1 / 10) ++ List.replicate 5 (3 / 10)

/-- Ten nearly constant samples (spread 0.00001): recent volatility below the
negligible-volatility threshold, so `predict_hours_in_range` returns the
48-hour floor. -/
def histCalm : List ℚ := List.replicate 9 (9 / 50) ++ [9 / 50 + 1 / 100000]

/-- `histCalm` with the deviations of its recent samples from their mean
scaled up by the factor 10. -/
def histCalmScaled : List ℚ :=
  histCalm.take (histCalm.length - 90) ++
    (recentWindow histCalm).map
      (fun p => sampleMean (recentWindow histCalm) +
        10 * (p - sampleMean (recentWindow histCalm)))

end Agent

namespace AegisPosition

/-- C1 (counterexample): a withdraw call by the creator with amounts within the
vault balances nevertheless fails when `total_withdrawals` is at the uint64
maximum, because the AVM aborts on the counter increment overflowing — so
success is not equivalent to "sender is creator and amounts are covered". -/
theorem C1_counterexample :
    (CallCtx.mk 0 0 100).sender = (CallCtx.mk 0 0 100).creator ∧
    1 ≤ maxWithdrawState.deposited_algo ∧
    1 ≤ maxWithdrawState.deposited_usdc ∧
    withdraw (CallCtx.mk 0 0 100) maxWithdrawState 1 1 = none := by
  decide

/-- C1 (amended): a withdraw call succeeds iff the sender is the creator, both
amounts are within the vault balances, and `total_withdrawals + 1` does not
overflow uint64; any call from the authorized agent address distinct from the
creator fails; and a failing call leaves the vault state unchanged. -/
theorem C1_withdraw_guard (ctx : CallCtx) (s : ContractState) (algo usdc : ℕ) :
    ((withdraw ctx s algo usdc).isSome ↔
      ctx.sender = ctx.creator ∧ algo ≤ s.deposited_algo ∧
      usdc ≤ s.deposited_usdc ∧ s.total_withdrawals + 1 < W) ∧
    (s.agent_authorized = 1 → ctx.sender = s.agent_address →
      ctx.sender ≠ ctx.creator → withdraw ctx s algo usdc = none) ∧
    (withdraw ctx s algo usdc = none →
      (applyTx s (withdraw ctx s algo usdc)).deposited_algo = s.deposited_algo ∧
      (applyTx s (withdraw ctx s algo usdc)).deposited_usdc = s.deposited_usdc ∧
      (applyTx s (withdraw ctx s algo usdc)).total_withdrawals = s.total_withdrawals) := by
  refine ⟨?_, ?_, ?_⟩
  · unfold withdraw checkedAdd
    split_ifs <;> simp_all
  · intro _ _ hne
    unfold withdraw
    simp [hne]
  · intro hfail
    simp [applyTx, hfail]

/-- C1 (witness): on a concrete state, a creator withdraw succeeds and the
same call from the authorized agent address fails. -/
theorem C1_withdraw_guard_witness :
    (withdraw (CallCtx.mk 0 0 5) baseState 100 200).isSome ∧
    withdraw (CallCtx.mk 7 0 5) baseState 100 200 = none := by
  refine ⟨?_, ?_⟩
  · exact (C1_withdraw_guard (CallCtx.mk 0 0 5) baseState 100 200).1.mpr (by decide)
  · exact (C1_withdraw_guard (CallCtx.mk 7 0 5) baseState 100 200).2.1
      (by decide) (by decide) (by decide)

/-- C9 (counterexample): a trigger_rebalance call by the creator fails when
`total_rebalances` is at the uint64 maximum (the AVM aborts on the counter
increment), so the call does not succeed for every creator/agent caller and
argument pair. -/
theorem C9_counterexample :
    (CallCtx.mk 0 0 9).sender = (CallCtx.mk 0 0 9).creator ∧
    trigger_rebalance (CallCtx.mk 0 0 9) maxRebalanceState 150 250 = none := by
  decide

/-- C9 (amended): for every caller that is the creator or the authorized agent
and every argument pair — including inverted or zero bounds — provided the two
decision counters do not overflow uint64, trigger_rebalance succeeds, stores
the bounds without validating order or positivity, increments the two counters
by exactly 1, and sets `last_decision_action = 1`. -/
theorem C9_trigger_rebalance_unvalidated (ctx : CallCtx) (s : ContractState)
    (new_lower new_upper : ℕ)
    (hauth : ctx.sender = ctx.creator ∨
      (s.agent_authorized = 1 ∧ ctx.sender = s.agent_address))
    (hr : s.total_rebalances + 1 < W) (hd : s.total_decisions + 1 < W) :
    ∃ s', trigger_rebalance ctx s new_lower new_upper = some s' ∧
      s'.lower_bound = new_lower ∧ s'.upper_bound = new_upper ∧
      s'.total_rebalances = s.total_rebalances + 1 ∧
      s'.total_decisions = s.total_decisions + 1 ∧
      s'.last_decision_action = 1 := by
  unfold trigger_rebalance checkedAdd
  simp only [if_pos hauth, if_pos hr, if_pos hd, Option.bind_eq_bind,
    Option.some_bind]
  exact ⟨_, rfl, rfl, rfl, rfl, rfl, rfl⟩

/-- C9 (witness): the authorized agent (a non-creator address) successfully
stores the inverted bounds `lower = 5, upper = 3`. -/
theorem C9_trigger_rebalance_unvalidated_witness :
    ∃ s', trigger_rebalance (CallCtx.mk 7 0 99) baseState 5 3 = some s' ∧
      s'.lower_bound = 5 ∧ s'.upper_bound = 3 ∧
      s'.total_rebalances = baseState.total_rebalances + 1 ∧
      s'.total_decisions = baseState.total_decisions + 1 ∧
      s'.last_decision_action = 1 :=
  C9_trigger_rebalance_unvalidated (CallCtx.mk 7 0 99) baseState 5 3
    (Or.inr (by decide)) (by decide) (by decide)

/-- C10 (counterexample): a deposit call fails when `deposited_algo` is at the
uint64 maximum and one more microAlgo is deposited (the AVM aborts on the
overflowing addition), so deposit does not succeed for every sender and
amount pair. -/
theorem C10_counterexample :
    deposit (CallCtx.mk 12345 0 9) maxAlgoState 1 0 = none := by
  decide

/-- C10 (amended): deposit performs no authorization check — for every sender,
including addresses that are neither the creator nor the authorized agent,
the call succeeds provided the three uint64 additions do not overflow, adds
the amounts to the vault balances, and increments `total_deposits` by 1. -/
theorem C10_deposit_public (ctx : CallCtx) (s : ContractState)
    (algo_amount usdc_amount : ℕ)
    (ha : s.deposited_algo + algo_amount < W)
    (hu : s.deposited_usdc + usdc_amount < W)
    (hd : s.total_deposits + 1 < W) :
    ∃ s', deposit ctx s algo_amount usdc_amount = some s' ∧
      s'.deposited_algo = s.deposited_algo + algo_amount ∧
      s'.deposited_usdc = s.deposited_usdc + usdc_amount ∧
      s'.total_deposits = s.total_deposits + 1 := by
  unfold deposit checkedAdd
  simp only [if_pos ha, if_pos hu, if_pos hd, Option.bind_eq_bind,
    Option.some_bind]
  exact ⟨_, rfl, rfl, rfl, rfl⟩

/-- C10 (witness): a sender (address 12345) that is neither the creator
(address 0) nor the authorized agent (address 7) deposits successfully. -/
theorem C10_deposit_public_witness :
    ∃ s', deposit (CallCtx.mk 12345 0 9) baseState 1000 2000 = some s' ∧
      s'.deposited_algo = baseState.deposited_algo + 1000 ∧
      s'.deposited_usdc = baseState.deposited_usdc + 2000 ∧
      s'.total_deposits = baseState.total_deposits + 1 :=
  C10_deposit_public (CallCtx.mk 12345 0 9) baseState 1000 2000
    (by decide) (by decide) (by decide)


end AegisPosition

namespace Agent

theorem sum_map_affine (l : List ℚ) (a b : ℚ) :
    (l.map (fun p => a + b * (p - a))).sum
      = l.length * a + b * (l.sum - l.length * a) := by
  induction l with
  | nil => simp
  | cons x xs ih =>
    simp only [List.map_cons, List.sum_cons, List.length_cons, ih]
    push_cast
    ring

theorem sampleMean_scaled (l : List ℚ) (k : ℚ) (hl : l ≠ []) :
    sampleMean (l.map (fun p => sampleMean l + k * (p - sampleMean l)))
      = sampleMean l := by
  have hn : (l.length : ℚ) ≠ 0 := by
    simpa using hl
  unfold sampleMean
  rw [List.length_map, sum_map_affine]
  field_simp

theorem sampleVariance_scaled (l : List ℚ) (k : ℚ) (hl : l ≠ []) :
    sampleVariance (l.map (fun p => sampleMean l + k * (p - sampleMean l)))
      = k ^ 2 * sampleVariance l := by
  unfold sampleVariance
  rw [sampleMean_scaled l k hl, List.length_map, List.map_map]
  have hfun : ((fun p => (p - sampleMean l) ^ 2) ∘
      (fun p => sampleMean l + k * (p - sampleMean l)))
      = fun p => k ^ 2 * ((p - sampleMean l) ^ 2) := by
    funext p
    simp only [Function.comp_apply]
    ring
  rw [hfun, List.sum_map_mul_left]
  ring

theorem length_scaledHistory (l : List ℚ) (f : ℚ → ℚ) :
    (l.take (l.length - 90) ++ (recentWindow l).map f).length = l.length := by
  simp only [recentWindow, List.length_append, List.length_take,
    List.length_map, List.length_drop]
  omega

theorem recentWindow_scaledHistory (l : List ℚ) (f : ℚ → ℚ) :
    recentWindow (l.take (l.length - 90) ++ (recentWindow l).map f)
      = (recentWindow l).map f := by
  unfold recentWindow
  have h : (l.take (l.length - 90) ++ (l.drop (l.length - 90)).map f).length - 90
      = (l.take (l.length - 90)).length := by
    simp only [List.length_append, List.length_take, List.length_map,
      List.length_drop]
    omega
  rw [h]
  exact List.drop_left _ _

theorem predict_main_branch (w : ℕ) (hist : List ℚ) (current lower upper : ℚ)
    (h10 : ¬ hist.length < 10)
    (hv : sampleVariance (recentWindow hist) > 0)
    (hbig : ¬ sampleVariance (recentWindow hist) * 90 < 1 / 100000000) :
    VolatilityModel.predict_hours_in_range ⟨w, hist⟩ current lower upper
      = min ((min (current - lower) (upper - current)) ^ 2
          / (sampleVariance (recentWindow hist) * 90)) 168 := by
  simp only [VolatilityModel.predict_hours_in_range]
  rw [if_neg h10, if_pos hv, if_neg hbig]

theorem evaluate_frame (now price : ℚ) (position : PositionState)
    (pool_state : PoolState) (st : EngineState) :
    (DecisionEngine.evaluate now price position pool_state st).2.vol_model
        = st.vol_model.update price ∧
    ((DecisionEngine.evaluate now price position pool_state st).1.action
        = .REBALANCE →
      (DecisionEngine.evaluate now price position pool_state st).2.last_rebalance_time
        = now) ∧
    ((DecisionEngine.evaluate now price position pool_state st).1.action
        ≠ .REBALANCE →
      (DecisionEngine.evaluate now price position pool_state st).2.last_rebalance_time
        = st.last_rebalance_time) := by
  simp only [DecisionEngine.evaluate]
  split_ifs <;> simp

/-- C4: whenever at least one rebalance has been emitted
(`last_rebalance_time > 0`) and the current time is within `cooldownSeconds`
after it, `evaluate` returns SKIP for every price and position input, and the
remaining time carried in its reason is at most `cooldownSeconds`. -/
theorem C4_cooldown_skip (now price : ℚ) (position : PositionState)
    (pool_state : PoolState) (st : EngineState)
    (hpos : 0 < st.last_rebalance_time)
    (hafter : st.last_rebalance_time ≤ now)
    (hwithin : now - st.last_rebalance_time < REBALANCE_COOLDOWN_SECONDS) :
    (DecisionEngine.evaluate now price position pool_state st).1.action = .SKIP ∧
    (DecisionEngine.evaluate now price position pool_state st).1.reason
      = .cooldown ⌊REBALANCE_COOLDOWN_SECONDS - (now - st.last_rebalance_time)⌋ ∧
    ((⌊REBALANCE_COOLDOWN_SECONDS - (now - st.last_rebalance_time)⌋ : ℚ)
      ≤ REBALANCE_COOLDOWN_SECONDS) := by
  have hc : now - st.last_rebalance_time < REBALANCE_COOLDOWN_SECONDS ∧
      st.last_rebalance_time > 0 := ⟨hwithin, hpos⟩
  simp only [DecisionEngine.evaluate]
  rw [if_pos hc]
  refine ⟨rfl, rfl, ?_⟩
  have h1 : REBALANCE_COOLDOWN_SECONDS - (now - st.last_rebalance_time)
      ≤ REBALANCE_COOLDOWN_SECONDS := by
    have h0 : 0 ≤ now - st.last_rebalance_time := by linarith
    linarith
  exact le_trans (Int.floor_le _) h1

/-- C4 (witness): evaluated 600 s after a rebalance at time 1000, the engine
skips with 1200 s remaining. -/
theorem C4_cooldown_skip_witness :
    (DecisionEngine.evaluate 1600 (25 / 100) examplePosition examplePool
        { vol_model := { window := 24, price_history := [] }
          last_rebalance_time := 1000 }).1.action = .SKIP ∧
    (DecisionEngine.evaluate 1600 (25 / 100) examplePosition examplePool
        { vol_model := { window := 24, price_history := [] }
          last_rebalance_time := 1000 }).1.reason
      = .cooldown ⌊REBALANCE_COOLDOWN_SECONDS - (1600 - 1000)⌋ ∧
    ((⌊REBALANCE_COOLDOWN_SECONDS - (1600 - 1000)⌋ : ℚ)
      ≤ REBALANCE_COOLDOWN_SECONDS) :=
  C4_cooldown_skip 1600 (25 / 100) examplePosition examplePool
    { vol_model := { window := 24, price_history := [] }
      last_rebalance_time := 1000 }
    (by norm_num) (by norm_num) (by norm_num [REBALANCE_COOLDOWN_SECONDS])

/-- C3 (counterexample): at price 0.218 — inside the range [0.140, 0.220] and
within 3% relative distance of the upper boundary — with a dispersed sample
window and no cooldown, `evaluate` returns a preemptive REBALANCE, not a
buffer-zone HOLD: the buffer-zone guard applies only to out-of-range prices. -/
theorem C3_counterexample :
    min (boundaryDist (218 / 1000) examplePosition.lower_bound)
        (boundaryDist (218 / 1000) examplePosition.upper_bound)
      < BUFFER_ZONE_PCT / 100 ∧
    examplePosition.lower_bound ≤ 218 / 1000 ∧
    (218 : ℚ) / 1000 ≤ examplePosition.upper_bound ∧
    (DecisionEngine.evaluate 1000 (218 / 1000) examplePosition examplePool
        { vol_model := { window := 24, price_history := histJumpy }
          last_rebalance_time := 0 }).1.action = .REBALANCE := by
  norm_num [DecisionEngine.evaluate, VolatilityModel.update,
    VolatilityModel.predict_hours_in_range, estimate_swap_cost, boundaryDist,
    sampleMean, sampleVariance, recentWindow, histJumpy, examplePosition,
    examplePool, REBALANCE_COOLDOWN_SECONDS, BUFFER_ZONE_PCT,
    COST_BENEFIT_MULTIPLIER, MIN_HOURS_IN_RANGE, VOLATILITY_WINDOW,
    List.replicate, abs_of_pos, abs_of_neg]

/-- C3 (amended): for every price strictly outside `[lowerBound, upperBound]`
whose smaller relative distance to a boundary is below `bufferZonePct / 100`,
provided the cooldown guard does not fire, `evaluate` returns HOLD with a
buffer-zone reason. -/
theorem C3_buffer_zone_hold (now price : ℚ) (position : PositionState)
    (pool_state : PoolState) (st : EngineState)
    (hcool : ¬(now - st.last_rebalance_time < REBALANCE_COOLDOWN_SECONDS ∧
      st.last_rebalance_time > 0))
    (hout : ¬(position.lower_bound ≤ price ∧ price ≤ position.upper_bound))
    (hbuf : min (boundaryDist price position.lower_bound)
        (boundaryDist price position.upper_bound) < BUFFER_ZONE_PCT / 100) :
    (DecisionEngine.evaluate now price position pool_state st).1.action = .HOLD ∧
    (DecisionEngine.evaluate now price position pool_state st).1.reason
      = .bufferZone (min (boundaryDist price position.lower_bound)
          (boundaryDist price position.upper_bound)) := by
  simp only [DecisionEngine.evaluate]
  rw [if_neg hcool, if_pos ⟨hout, hbuf⟩]
  exact ⟨rfl, rfl⟩

/-- C3 (witness): price 0.225, 2.3% above the upper bound 0.220, yields a
buffer-zone HOLD. -/
theorem C3_buffer_zone_hold_witness :
    (DecisionEngine.evaluate 1000 (225 / 1000) examplePosition examplePool
        freshEngine).1.action = .HOLD ∧
    (DecisionEngine.evaluate 1000 (225 / 1000) examplePosition examplePool
        freshEngine).1.reason
      = .bufferZone (min (boundaryDist (225 / 1000) examplePosition.lower_bound)
          (boundaryDist (225 / 1000) examplePosition.upper_bound)) :=
  C3_buffer_zone_hold 1000 (225 / 1000) examplePosition examplePool freshEngine
    (by norm_num [freshEngine])
    (by norm_num [examplePosition])
    (by norm_num [examplePosition, boundaryDist, BUFFER_ZONE_PCT,
      abs_of_pos, abs_of_neg])

/-- C5: when the price is outside the range, beyond the buffer zone, and no
cooldown is active, `evaluate` emits REBALANCE exactly when
`projectedWeekly = capital * feeRate * 7` exceeds
`swapCost * costBenefitMultiplier`, with new bounds `price * 0.82` and
`price * 1.22`, and emits SKIP otherwise. -/
theorem C5_out_of_range_cost_benefit (now price : ℚ) (position : PositionState)
    (pool_state : PoolState) (st : EngineState)
    (hcool : ¬(now - st.last_rebalance_time < REBALANCE_COOLDOWN_SECONDS ∧
      st.last_rebalance_time > 0))
    (hout : ¬(position.lower_bound ≤ price ∧ price ≤ position.upper_bound))
    (hbuf : ¬ min (boundaryDist price position.lower_bound)
        (boundaryDist price position.upper_bound) < BUFFER_ZONE_PCT / 100) :
    ((DecisionEngine.evaluate now price position pool_state st).1.action
        = .REBALANCE ↔
      position.capital_usdc * pool_state.fee_rate * 7 >
        estimate_swap_cost position.capital_usdc (1 / 2) *
          COST_BENEFIT_MULTIPLIER) ∧
    (position.capital_usdc * pool_state.fee_rate * 7 >
        estimate_swap_cost position.capital_usdc (1 / 2) *
          COST_BENEFIT_MULTIPLIER →
      (DecisionEngine.evaluate now price position pool_state st).1.new_lower
          = some (price * (82 / 100)) ∧
      (DecisionEngine.evaluate now price position pool_state st).1.new_upper
          = some (price * (122 / 100))) ∧
    (¬ position.capital_usdc * pool_state.fee_rate * 7 >
        estimate_swap_cost position.capital_usdc (1 / 2) *
          COST_BENEFIT_MULTIPLIER →
      (DecisionEngine.evaluate now price position pool_state st).1.action
        = .SKIP) := by
  simp only [DecisionEngine.evaluate]
  rw [if_neg hcool, if_neg (fun h => hbuf h.2), if_neg hout]
  split_ifs with hpw
  · refine ⟨⟨fun _ => hpw, fun _ => rfl⟩, fun _ => ⟨rfl, rfl⟩,
      fun hn => absurd hpw hn⟩
  · refine ⟨⟨fun h => ?_, fun h => absurd h hpw⟩, fun h => absurd h hpw,
      fun _ => rfl⟩
    exact absurd h (by simp)

/-- C5 (witness): the spec scenario — price 0.25 above the range [0.140,
0.220], capital 5000, fee rate 0.003; projected weekly 105 exceeds
swap cost 20.004 times 2.5, so REBALANCE with bounds 0.205 and 0.305. -/
theorem C5_out_of_range_cost_benefit_witness :
    (DecisionEngine.evaluate 1000 (25 / 100) examplePosition examplePool
        freshEngine).1.action = .REBALANCE ∧
    (DecisionEngine.evaluate 1000 (25 / 100) examplePosition examplePool
        freshEngine).1.new_lower = some ((25 / 100 : ℚ) * (82 / 100)) ∧
    (DecisionEngine.evaluate 1000 (25 / 100) examplePosition examplePool
        freshEngine).1.new_upper = some ((25 / 100 : ℚ) * (122 / 100)) ∧
    ((25 / 100 : ℚ) * (82 / 100) = 205 / 1000) ∧
    ((25 / 100 : ℚ) * (122 / 100) = 305 / 1000) := by
  have hcool : ¬((1000 : ℚ) - freshEngine.last_rebalance_time <
      REBALANCE_COOLDOWN_SECONDS ∧ freshEngine.last_rebalance_time > 0) := by
    norm_num [freshEngine]
  have hout : ¬(examplePosition.lower_bound ≤ 25 / 100 ∧
      (25 / 100 : ℚ) ≤ examplePosition.upper_bound) := by
    norm_num [examplePosition]
  have hbuf : ¬ min (boundaryDist (25 / 100) examplePosition.lower_bound)
      (boundaryDist (25 / 100) examplePosition.upper_bound)
        < BUFFER_ZONE_PCT / 100 := by
    norm_num [examplePosition, boundaryDist, BUFFER_ZONE_PCT, abs_of_pos]
  have hpw : examplePosition.capital_usdc * examplePool.fee_rate * 7 >
      estimate_swap_cost examplePosition.capital_usdc (1 / 2) *
        COST_BENEFIT_MULTIPLIER := by
    norm_num [examplePosition, examplePool, estimate_swap_cost,
      COST_BENEFIT_MULTIPLIER]
  have h := C5_out_of_range_cost_benefit 1000 (25 / 100) examplePosition
    examplePool freshEngine hcool hout hbuf
  exact ⟨h.1.mpr hpw, (h.2.1 hpw).1, (h.2.1 hpw).2, by norm_num, by norm_num⟩

/-- C2 (counterexample): at price 0.18 inside the range, with a dispersed
sample window forcing `hours_in_range < 4` and a favorable net benefit,
`evaluate` returns a preemptive REBALANCE whose decision dict carries no
`new_lower`/`new_upper` keys — contradicting "the new-bounds fields are both
present on every REBALANCE". -/
theorem C2_counterexample :
    (DecisionEngine.evaluate 1000 (18 / 100) examplePosition examplePool
        { vol_model := { window := 24, price_history := histJumpy }
          last_rebalance_time := 0 }).1.action = .REBALANCE ∧
    (DecisionEngine.evaluate 1000 (18 / 100) examplePosition examplePool
        { vol_model := { window := 24, price_history := histJumpy }
          last_rebalance_time := 0 }).1.new_lower = none ∧
    (DecisionEngine.evaluate 1000 (18 / 100) examplePosition examplePool
        { vol_model := { window := 24, price_history := histJumpy }
          last_rebalance_time := 0 }).1.new_upper = none := by
  norm_num [DecisionEngine.evaluate, VolatilityModel.update,
    VolatilityModel.predict_hours_in_range, estimate_swap_cost, boundaryDist,
    sampleMean, sampleVariance, recentWindow, histJumpy, examplePosition,
    examplePool, REBALANCE_COOLDOWN_SECONDS, BUFFER_ZONE_PCT,
    COST_BENEFIT_MULTIPLIER, MIN_HOURS_IN_RANGE, VOLATILITY_WINDOW,
    List.replicate, abs_of_pos, abs_of_neg]

/-- C2 (amended): whenever a decision carries the new-bounds fields, it is an
out-of-range REBALANCE with `new_lower = price * 0.82` and
`new_upper = price * 1.22`, which satisfy `0 < new_lower < new_upper` for
positive price; every non-REBALANCE decision carries neither field — but a
preemptive (in-range) REBALANCE also carries neither field, so presence of
the bounds is not equivalent to `action = REBALANCE`. -/
theorem C2_rebalance_bounds (now price : ℚ) (position : PositionState)
    (pool_state : PoolState) (st : EngineState) :
    ((DecisionEngine.evaluate now price position pool_state st).1.new_lower ≠ none ∨
      (DecisionEngine.evaluate now price position pool_state st).1.new_upper ≠ none →
      (DecisionEngine.evaluate now price position pool_state st).1.action
          = .REBALANCE ∧
      (DecisionEngine.evaluate now price position pool_state st).1.new_lower
          = some (price * (82 / 100)) ∧
      (DecisionEngine.evaluate now price position pool_state st).1.new_upper
          = some (price * (122 / 100))) ∧
    (0 < price → ∀ lo hi,
      (DecisionEngine.evaluate now price position pool_state st).1.new_lower
          = some lo →
      (DecisionEngine.evaluate now price position pool_state st).1.new_upper
          = some hi →
      0 < lo ∧ lo < hi) ∧
    ((DecisionEngine.evaluate now price position pool_state st).1.action
        ≠ .REBALANCE →
      (DecisionEngine.evaluate now price position pool_state st).1.new_lower
          = none ∧
      (DecisionEngine.evaluate now price position pool_state st).1.new_upper
          = none) := by
  simp only [DecisionEngine.evaluate]
  split_ifs
  · exact ⟨by simp, by simp, fun _ => ⟨rfl, rfl⟩⟩
  · exact ⟨by simp, by simp, fun _ => ⟨rfl, rfl⟩⟩
  · exact ⟨by simp, by simp, fun h => absurd rfl h⟩
  · exact ⟨by simp, by simp, fun _ => ⟨rfl, rfl⟩⟩
  · exact ⟨by simp, by simp, fun _ => ⟨rfl, rfl⟩⟩
  · refine ⟨fun _ => ⟨rfl, rfl, rfl⟩, fun hp lo hi hlo hhi => ?_,
      fun h => absurd rfl h⟩
    simp only [Option.some.injEq] at hlo hhi
    subst hlo
    subst hhi
    exact ⟨by positivity, mul_lt_mul_of_pos_left (by norm_num) hp⟩
  · exact ⟨by simp, by simp, fun _ => ⟨rfl, rfl⟩⟩

/-- C2 (witness): a concrete out-of-range REBALANCE (price 0.26) carries both
bounds, ordered and positive. -/
theorem C2_rebalance_bounds_witness :
    ((DecisionEngine.evaluate 1000 (26 / 100) examplePosition examplePool
        freshEngine).1.action = .REBALANCE ∧
      (DecisionEngine.evaluate 1000 (26 / 100) examplePosition examplePool
          freshEngine).1.new_lower = some ((26 / 100 : ℚ) * (82 / 100)) ∧
      (DecisionEngine.evaluate 1000 (26 / 100) examplePosition examplePool
          freshEngine).1.new_upper = some ((26 / 100 : ℚ) * (122 / 100))) ∧
    (0 < (26 / 100 : ℚ) * (82 / 100) ∧
      (26 / 100 : ℚ) * (82 / 100) < (26 / 100 : ℚ) * (122 / 100)) := by
  have hlow : (DecisionEngine.evaluate 1000 (26 / 100) examplePosition
        examplePool freshEngine).1.new_lower = some (533 / 2500 : ℚ) := by
    norm_num [DecisionEngine.evaluate, VolatilityModel.update,
      VolatilityModel.predict_hours_in_range, estimate_swap_cost, boundaryDist,
      sampleMean, sampleVariance, recentWindow, examplePosition, examplePool,
      freshEngine, REBALANCE_COOLDOWN_SECONDS, BUFFER_ZONE_PCT,
      COST_BENEFIT_MULTIPLIER, MIN_HOURS_IN_RANGE, VOLATILITY_WINDOW,
      abs_of_pos, abs_of_neg]
  have hpresent : (DecisionEngine.evaluate 1000 (26 / 100) examplePosition
        examplePool freshEngine).1.new_lower ≠ none ∨
      (DecisionEngine.evaluate 1000 (26 / 100) examplePosition examplePool
        freshEngine).1.new_upper ≠ none := by
    rw [hlow]
    exact Or.inl (Option.some_ne_none _)
  have h1 := (C2_rebalance_bounds 1000 (26 / 100) examplePosition examplePool
    freshEngine).1 hpresent
  have h2 := (C2_rebalance_bounds 1000 (26 / 100) examplePosition examplePool
    freshEngine).2.1 (by norm_num) _ _ h1.2.1 h1.2.2
  exact ⟨h1, h2⟩

/-- C6 (counterexample): a HOLD evaluation starting from an empty sample
window leaves the engine with a one-sample window — `evaluate` does mutate
the volatility model's sample window. -/
theorem C6_counterexample :
    freshEngine.vol_model.price_history = [] ∧
    (DecisionEngine.evaluate 1000 (18 / 100) examplePosition examplePool
        freshEngine).1.action = .HOLD ∧
    (DecisionEngine.evaluate 1000 (18 / 100) examplePosition examplePool
        freshEngine).2.vol_model.price_history = [18 / 100] := by
  refine ⟨rfl, ?_, ?_⟩ <;>
    norm_num [DecisionEngine.evaluate, VolatilityModel.update,
      VolatilityModel.predict_hours_in_range, estimate_swap_cost, boundaryDist,
      sampleMean, sampleVariance, recentWindow, examplePosition, examplePool,
      freshEngine, REBALANCE_COOLDOWN_SECONDS, BUFFER_ZONE_PCT,
      COST_BENEFIT_MULTIPLIER, MIN_HOURS_IN_RANGE, VOLATILITY_WINDOW,
      abs_of_pos, abs_of_neg]

/-- C6 (amended): `evaluate` mutates exactly two pieces of engine state — it
always pushes the observed price through the volatility model's window update,
and it sets `last_rebalance_time` to the evaluation time exactly when the
returned action is REBALANCE; otherwise the timestamp is unchanged. -/
theorem C6_state_effects (now price : ℚ) (position : PositionState)
    (pool_state : PoolState) (st : EngineState) :
    (DecisionEngine.evaluate now price position pool_state st).2.vol_model
        = st.vol_model.update price ∧
    ((DecisionEngine.evaluate now price position pool_state st).1.action
        = .REBALANCE →
      (DecisionEngine.evaluate now price position pool_state st).2.last_rebalance_time
        = now) ∧
    ((DecisionEngine.evaluate now price position pool_state st).1.action
        ≠ .REBALANCE →
      (DecisionEngine.evaluate now price position pool_state st).2.last_rebalance_time
        = st.last_rebalance_time) :=
  evaluate_frame now price position pool_state st

/-- C6 (witness): on a REBALANCE (price 0.25) the timestamp becomes the
evaluation time 1000; on a HOLD (price 0.18) it stays 0. -/
theorem C6_state_effects_witness :
    (DecisionEngine.evaluate 1000 (25 / 100) examplePosition examplePool
        freshEngine).2.last_rebalance_time = 1000 ∧
    (DecisionEngine.evaluate 1000 (18 / 100) examplePosition examplePool
        freshEngine).2.last_rebalance_time = freshEngine.last_rebalance_time := by
  constructor
  · refine (C6_state_effects 1000 (25 / 100) examplePosition examplePool
      freshEngine).2.1 ?_
    norm_num [DecisionEngine.evaluate, VolatilityModel.update,
      VolatilityModel.predict_hours_in_range, estimate_swap_cost, boundaryDist,
      sampleMean, sampleVariance, recentWindow, examplePosition, examplePool,
      freshEngine, REBALANCE_COOLDOWN_SECONDS, BUFFER_ZONE_PCT,
      COST_BENEFIT_MULTIPLIER, MIN_HOURS_IN_RANGE, VOLATILITY_WINDOW,
      abs_of_pos, abs_of_neg]
  · refine (C6_state_effects 1000 (18 / 100) examplePosition examplePool
      freshEngine).2.2 ?_
    norm_num [DecisionEngine.evaluate, VolatilityModel.update,
      VolatilityModel.predict_hours_in_range, estimate_swap_cost, boundaryDist,
      sampleMean, sampleVariance, recentWindow, examplePosition, examplePool,
      freshEngine, REBALANCE_COOLDOWN_SECONDS, BUFFER_ZONE_PCT,
      COST_BENEFIT_MULTIPLIER, MIN_HOURS_IN_RANGE, VOLATILITY_WINDOW,
      abs_of_pos, abs_of_neg]
    decide

/-- C7: when a cycle's REBALANCE fails at atomic-group submission
(`submit_result = none`, live mode), the cycle logs SKIP with the reverted
note appended to the decision's reason, records no execution id, and keeps
the engine's `last_rebalance_time` at the value `evaluate` stamped at
decision time. -/
theorem C7_revert_downgrade (now price : ℚ) (position : PositionState)
    (pool_state : PoolState) (st : EngineState)
    (hreb : (DecisionEngine.evaluate now price position pool_state st).1.action
      = .REBALANCE) :
    (runCycle now price position pool_state st false none).1.action = .SKIP ∧
    (runCycle now price position pool_state st false none).1.reason
      = .reverted (DecisionEngine.evaluate now price position pool_state st).1.reason ∧
    (runCycle now price position pool_state st false none).1.tx_id = none ∧
    (runCycle now price position pool_state st false none).2.last_rebalance_time
      = now := by
  have hfr := (evaluate_frame now price position pool_state st).2.1 hreb
  simp only [runCycle]
  rw [if_pos ⟨hreb, by trivial⟩]
  exact ⟨rfl, rfl, rfl, hfr⟩

/-- C7 (witness): concrete failed submission of the price-0.25 REBALANCE. -/
theorem C7_revert_downgrade_witness :
    (runCycle 1000 (25 / 100) examplePosition examplePool freshEngine
        false none).1.action = .SKIP ∧
    (runCycle 1000 (25 / 100) examplePosition examplePool freshEngine
        false none).1.reason
      = .reverted (DecisionEngine.evaluate 1000 (25 / 100) examplePosition
          examplePool freshEngine).1.reason ∧
    (runCycle 1000 (25 / 100) examplePosition examplePool freshEngine
        false none).1.tx_id = none ∧
    (runCycle 1000 (25 / 100) examplePosition examplePool freshEngine
        false none).2.last_rebalance_time = 1000 :=
  C7_revert_downgrade 1000 (25 / 100) examplePosition examplePool freshEngine
    (by norm_num [DecisionEngine.evaluate, VolatilityModel.update,
      VolatilityModel.predict_hours_in_range, estimate_swap_cost, boundaryDist,
      sampleMean, sampleVariance, recentWindow, examplePosition, examplePool,
      freshEngine, REBALANCE_COOLDOWN_SECONDS, BUFFER_ZONE_PCT,
      COST_BENEFIT_MULTIPLIER, MIN_HOURS_IN_RANGE, VOLATILITY_WINDOW,
      abs_of_pos, abs_of_neg])

/-- C8 (counterexample): scaling the deviations of ten nearly constant
samples up by the factor 10 multiplies the recent variance by 100, yet the
predicted hours jump from the 48-hour negligible-volatility floor to the
168-hour cap — so `predict_hours_in_range` is not monotone non-increasing in
the dispersion of the recent samples. -/
theorem C8_counterexample :
    sampleVariance (recentWindow histCalmScaled)
      = 100 * sampleVariance (recentWindow histCalm) ∧
    VolatilityModel.predict_hours_in_range ⟨24, histCalm⟩
      (18 / 100) (14 / 100) (22 / 100) = 48 ∧
    VolatilityModel.predict_hours_in_range ⟨24, histCalmScaled⟩
      (18 / 100) (14 / 100) (22 / 100) = 168 := by
  norm_num [VolatilityModel.predict_hours_in_range, sampleMean, sampleVariance,
    recentWindow, histCalm, histCalmScaled, List.replicate]

/-- C8 (amended): the prediction is monotone away from the
negligible-volatility floor: when the recent variance is already at or above
the threshold (`variance * 90 ≥ 10⁻⁸`), scaling the recent deviations up by
any factor `k ≥ 1` never increases the predicted hours; and for a fixed
history of at least 10 samples, a smaller nonnegative distance to the nearer
boundary never increases the predicted hours.  (Starting below the threshold,
the 48-hour floor applies and crossing the threshold upward can raise the
prediction, as the counterexample shows.) -/
theorem C8_volatility_monotone :
    (∀ (w w' : ℕ) (hist : List ℚ) (k current lower upper : ℚ),
      10 ≤ hist.length → 1 ≤ k →
      1 / 100000000 ≤ sampleVariance (recentWindow hist) * 90 →
      VolatilityModel.predict_hours_in_range
          ⟨w', hist.take (hist.length - 90) ++
            (recentWindow hist).map (fun p => sampleMean (recentWindow hist) +
              k * (p - sampleMean (recentWindow hist)))⟩ current lower upper
        ≤ VolatilityModel.predict_hours_in_range ⟨w, hist⟩
            current lower upper) ∧
    (∀ (w : ℕ) (hist : List ℚ) (c₁ l₁ u₁ c₂ l₂ u₂ : ℚ),
      10 ≤ hist.length →
      0 ≤ min (c₂ - l₂) (u₂ - c₂) →
      min (c₂ - l₂) (u₂ - c₂) ≤ min (c₁ - l₁) (u₁ - c₁) →
      VolatilityModel.predict_hours_in_range ⟨w, hist⟩ c₂ l₂ u₂
        ≤ VolatilityModel.predict_hours_in_range ⟨w, hist⟩ c₁ l₁ u₁) := by
  constructor
  · intro w w' hist k current lower upper h10 hk hbig
    have h10' : ¬ hist.length < 10 := by omega
    have hrlen : (recentWindow hist).length
        = hist.length - (hist.length - 90) := by
      simp [recentWindow]
    have hrne : recentWindow hist ≠ [] := by
      have hpos : 0 < (recentWindow hist).length := by omega
      exact List.length_pos.mp hpos
    have hv : 0 < sampleVariance (recentWindow hist) := by linarith
    have hk2 : 1 ≤ k ^ 2 := by nlinarith
    have hvar' : sampleVariance ((recentWindow hist).map
        (fun p => sampleMean (recentWindow hist) +
          k * (p - sampleMean (recentWindow hist))))
        = k ^ 2 * sampleVariance (recentWindow hist) :=
      sampleVariance_scaled _ k hrne
    have hlen' := length_scaledHistory hist
      (fun p => sampleMean (recentWindow hist) +
        k * (p - sampleMean (recentWindow hist)))
    have hrec' := recentWindow_scaledHistory hist
      (fun p => sampleMean (recentWindow hist) +
        k * (p - sampleMean (recentWindow hist)))
    have hv2 : 0 < k ^ 2 * sampleVariance (recentWindow hist) :=
      mul_pos (lt_of_lt_of_le one_pos hk2) hv
    have hmono : sampleVariance (recentWindow hist) * 90
        ≤ k ^ 2 * sampleVariance (recentWindow hist) * 90 := by nlinarith
    rw [predict_main_branch w hist current lower upper h10' hv (by linarith)]
    rw [predict_main_branch w' _ current lower upper
      (by rw [hlen']; omega)
      (by rw [hrec', hvar']; exact hv2)
      (by rw [hrec', hvar']; linarith)]
    rw [hrec', hvar']
    refine min_le_min ?_ le_rfl
    have hd2 : (0 : ℚ) ≤ (min (current - lower) (upper - current)) ^ 2 :=
      sq_nonneg _
    have hden1 : (0 : ℚ) < sampleVariance (recentWindow hist) * 90 := by
      linarith
    gcongr
  · intro w hist c₁ l₁ u₁ c₂ l₂ u₂ h10 hd0 hdle
    have hd2 : (min (c₂ - l₂) (u₂ - c₂)) ^ 2
        ≤ (min (c₁ - l₁) (u₁ - c₁)) ^ 2 :=
      pow_le_pow_left hd0 hdle 2
    simp only [VolatilityModel.predict_hours_in_range]
    split_ifs
    · exact le_refl _
    · exact le_refl _
    · refine min_le_min ?_ le_rfl
      have hApos : (0 : ℚ)
          < sampleVariance (recentWindow hist) * 90 := by linarith
      gcongr
    · exact le_refl _
    · refine min_le_min ?_ le_rfl
      have hApos : (0 : ℚ) < (1 / 1000000 : ℚ) * 90 := by norm_num
      gcongr

/-- C8 (witness): on the dispersed ten-sample history, scaling the
deviations by 2 does not increase the prediction, and shrinking the distance
to the nearer boundary does not increase it. -/
theorem C8_volatility_monotone_witness :
    VolatilityModel.predict_hours_in_range
        ⟨24, histJumpy.take (histJumpy.length - 90) ++
          (recentWindow histJumpy).map
            (fun p => sampleMean (recentWindow histJumpy) +
              2 * (p - sampleMean (recentWindow histJumpy)))⟩
        (18 / 100) (14 / 100) (22 / 100)
      ≤ VolatilityModel.predict_hours_in_range ⟨24, histJumpy⟩
        (18 / 100) (14 / 100) (22 / 100) ∧
    VolatilityModel.predict_hours_in_range ⟨24, histJumpy⟩
        (19 / 100) (15 / 100) (21 / 100)
      ≤ VolatilityModel.predict_hours_in_range ⟨24, histJumpy⟩
        (18 / 100) (14 / 100) (22 / 100) :=
  ⟨C8_volatility_monotone.1 24 24 histJumpy 2 (18 / 100) (14 / 100) (22 / 100)
      (by norm_num [histJumpy]) (by norm_num)
      (by norm_num [histJumpy, sampleVariance, sampleMean, recentWindow,
        List.replicate]),
   C8_volatility_monotone.2 24 histJumpy (18 / 100) (14 / 100) (22 / 100)
      (19 / 100) (15 / 100) (21 / 100)
      (by norm_num [histJumpy]) (by norm_num [min_def]) (by norm_num [min_def])⟩

end Agent
